import Mathlib

/-!
Shallow embedding of `src/Houdini_FBX_Importer.py`.

The script drives the Houdini `hou` API: it reads a file selection from a
dialog and issues a linear sequence of scene-graph API calls (create node,
set parameter, connect input, layout).  We model each API call as an
`Event`, a node by its path string, and the two methods of `FbxImporter`
as pure functions from the importer state (and, for the dialog, the string
the dialog returns) to the updated state plus the emitted event trace.
Node paths follow Houdini conventions: the geometry container is created
under "/obj" and its children under "/obj/<geo name>/".

One deviation from Python forced by typing: after a cancelled dialog the
Python code leaves `self.fbx_files` holding the empty string returned by
`selectFile` (a falsy value); here `fbx_files` is a `List String` and the
cancelled branch stores `[]`, the falsy value of the list type.  Every
truthiness test the script performs is preserved by this collapse.
-/

namespace HoudiniFbx

/-- A parameter value passed to `parm(...).set(...)`: the script sets the
string-valued "file" parameter and the numeric "tx" parameter. -/
inductive Value where
  | str (s : String)
  | int (n : Int)
deriving DecidableEq, Repr

/-- One call against the `hou` API, in the order the script issues them. -/
inductive Event where
  | displayMessage (msg : String)
  | createNode (parent ntype name : String)
  | moveToGoodPosition (node : String)
  | setDisplayFlag (node : String) (v : Bool)
  | setRenderFlag (node : String) (v : Bool)
  | setParm (node : String) (parm : String) (v : Value)
  | setInput (dst : String) (idx : Nat) (src : String)
  | destroy (node : String)
  | layoutChildren (node : String)
  | printMsg (msg : String)
deriving DecidableEq, Repr

/-- The instance fields of the Python class `FbxImporter`. -/
structure Importer where
  fbx_files : List String
  geo_node_name : String
  output_node_name : String
  translate_x : Int
deriving DecidableEq, Repr

/-- `FbxImporter.__init__`: empty selection, default names, 20-unit step. -/
def Importer.init : Importer where
  fbx_files := []
  geo_node_name := "fbx_imports"
  output_node_name := "output1"
  translate_x := 20

/-- The importer obtained from `__init__` with a given selection in place,
as after a successful `get_fbx_files_from_ui` run. -/
def withFiles (fs : List String) : Importer :=
  { Importer.init with fbx_files := fs }

/-- Path of the geometry container node the script creates under "/obj". -/
def geoPath (imp : Importer) : String :=
  "/obj/" ++ imp.geo_node_name

/-- Path of a child node of the geometry container. -/
def childPath (imp : Importer) (name : String) : String :=
  geoPath imp ++ "/" ++ name

/-- Path of the i-th file node `fbx_import_i`. -/
def filePath (imp : Importer) (i : Nat) : String :=
  childPath imp ("fbx_import_" ++ toString i)

/-- Path of the i-th transform node `transform_i`. -/
def xformPath (imp : Importer) (i : Nat) : String :=
  childPath imp ("transform_" ++ toString i)

/-- Path of the merge node `fbx_merge`. -/
def mergePath (imp : Importer) : String :=
  childPath imp ("fbx_merge")

/-- Path of the output node. -/
def outputPath (imp : Importer) : String :=
  childPath imp imp.output_node_name

/-- `FbxImporter.get_fbx_files_from_ui`, with the string returned by
`hou.ui.selectFile` passed in as `sel`.  A cancelled dialog returns the
empty string; otherwise the selection is split on ";" and each piece is
stripped of surrounding whitespace. -/
def get_fbx_files_from_ui (imp : Importer) (sel : String) :
    Importer × List Event × Bool :=
  if sel = "" then
    ({ imp with fbx_files := [] },
     [Event.displayMessage ("FBX file selection cancelled.")], false)
  else
    ({ imp with fbx_files := (sel.splitOn (";")).map String.trim }, [], true)

/-- The body of the per-file loop (lines 70-81): create the file node, set
its "file" parameter, create the transform node, wire it to the file node
and set its "tx" parameter to `translate_x * i`. -/
def importLoopStep (imp : Importer) (i : Nat) (fbx_file_path : String) :
    List Event :=
  [Event.createNode (geoPath imp) ("file") ("fbx_import_" ++ toString i),
   Event.setParm (filePath imp i) ("file") (Value.str fbx_file_path),
   Event.moveToGoodPosition (filePath imp i),
   Event.createNode (geoPath imp) ("xform") ("transform_" ++ toString i),
   Event.setInput (xformPath imp i) 0 (filePath imp i),
   Event.moveToGoodPosition (xformPath imp i),
   Event.setParm (xformPath imp i) ("tx")
     (Value.int (imp.translate_x * (i : Int)))]

/-- The `for i, fbx_file_path in enumerate(self.fbx_files)` loop: emits the
step events for each file in order and accumulates `file_nodes`, the list
of transform-node paths appended one per iteration.  `i` is the index of
the first remaining file. -/
def importLoop (imp : Importer) : Nat → List String → List Event × List String
  | _, [] => ([], [])
  | i, p :: rest =>
    (importLoopStep imp i p ++ (importLoop imp (i + 1) rest).1,
     xformPath imp i :: (importLoop imp (i + 1) rest).2)

/-- The `for i, node in enumerate(file_nodes)` loop wiring the merge node:
`merge_node.setInput(i, node)` for each stored transform node. -/
def mergeInputs (imp : Importer) : Nat → List String → List Event
  | _, [] => []
  | i, node :: rest =>
    Event.setInput (mergePath imp) i node :: mergeInputs imp (i + 1) rest

/-- Lines 52-59: create the geometry container and the output node, and
raise the output node's display and render flags. -/
def headerEvents (imp : Importer) : List Event :=
  [Event.createNode ("/obj") ("geo") imp.geo_node_name,
   Event.moveToGoodPosition (geoPath imp),
   Event.createNode (geoPath imp) ("output") imp.output_node_name,
   Event.moveToGoodPosition (outputPath imp),
   Event.setDisplayFlag (outputPath imp) true,
   Event.setRenderFlag (outputPath imp) true]

/-- Lines 86-98: if `file_nodes` is non-empty, either create and wire the
merge node (more than one input) or plug the single transform node into
the output node; otherwise report and destroy the geometry container. -/
def mergeEvents (imp : Importer) (file_nodes : List String) : List Event :=
  if file_nodes.isEmpty then
    [Event.displayMessage ("No valid FBX files selected."),
     Event.destroy (geoPath imp)]
  else if 1 < file_nodes.length then
    Event.createNode (geoPath imp) ("merge") ("fbx_merge") ::
      (mergeInputs imp 0 file_nodes ++
       [Event.moveToGoodPosition (mergePath imp),
        Event.setInput (outputPath imp) 0 (mergePath imp)])
  else
    [Event.setInput (outputPath imp) 0 (file_nodes.headD (""))]

/-- Lines 100-102: auto-layout and the success message printed at the end
of every run that reaches them. -/
def footerEvents (imp : Importer) : List Event :=
  [Event.layoutChildren (geoPath imp),
   Event.printMsg ("FBX import network created successfully in: "
     ++ geoPath imp)]

/-- `FbxImporter.create_fbx_import_network`.  The method reads but never
writes the instance fields, so it returns the unchanged importer together
with the trace of API calls.  Both emptiness guards of the Python body
(lines 47 and 61) are kept. -/
def create_fbx_import_network (imp : Importer) : Importer × List Event :=
  if imp.fbx_files.isEmpty then
    (imp, [Event.displayMessage
      ("FBX files not selected. Please select files first.")])
  else if imp.fbx_files.isEmpty then
    (imp, headerEvents imp ++
      [Event.displayMessage ("No FBX files selected."),
       Event.destroy (geoPath imp)])
  else
    (imp, headerEvents imp ++ (importLoop imp 0 imp.fbx_files).1 ++
      mergeEvents imp (importLoop imp 0 imp.fbx_files).2 ++
      footerEvents imp)

/-- Event classifiers used to count the calls a run performs. -/
def Event.isCreateNode : Event → Bool
  | .createNode _ _ _ => true
  | _ => false

/-- True exactly on parameter-setting events. -/
def Event.isSetParm : Event → Bool
  | .setParm _ _ _ => true
  | _ => false

/-- True exactly on input-connection events. -/
def Event.isSetInput : Event → Bool
  | .setInput _ _ _ => true
  | _ => false

lemma isEmpty_eq_false {α : Type} {l : List α} (h : l ≠ []) :
    l.isEmpty = false := by
  cases l with
  | nil => exact absurd rfl h
  | cons a t => rfl

lemma mem_of_mem_step (imp : Importer) (fs : List String) :
    ∀ (s i : Nat), i < fs.length →
      ∀ e ∈ importLoopStep imp (s + i) (fs.getD i ("")),
        e ∈ (importLoop imp s fs).1 := by
  induction fs with
  | nil => intro s i hi; simp at hi
  | cons p rest ih =>
    intro s i hi e he
    simp only [importLoop, List.mem_append]
    cases i with
    | zero => exact Or.inl (by simpa using he)
    | succ j =>
      refine Or.inr ?_
      have hj : j < rest.length := by simpa using hi
      have he2 : e ∈ importLoopStep imp ((s + 1) + j) (rest.getD j ("")) := by
        have hsj : (s + 1) + j = s + (j + 1) := by omega
        rw [hsj]
        simpa using he
      exact ih (s + 1) j hj e he2

lemma importLoop_snd_length (imp : Importer) (fs : List String) :
    ∀ (s : Nat), ((importLoop imp s fs).2).length = fs.length := by
  induction fs with
  | nil => intro s; simp [importLoop]
  | cons p rest ih => intro s; simp [importLoop, ih]

lemma importLoop_snd_headD (imp : Importer) (s : Nat) (fs : List String)
    (h : fs ≠ []) : ((importLoop imp s fs).2).headD ("") = xformPath imp s := by
  cases fs with
  | nil => exact absurd rfl h
  | cons p rest => simp [importLoop]

lemma mergeInputs_mem (imp : Importer) (fs : List String) :
    ∀ (s0 s i : Nat), i < fs.length →
      Event.setInput (mergePath imp) (s0 + i) (xformPath imp (s + i)) ∈
        mergeInputs imp s0 (importLoop imp s fs).2 := by
  induction fs with
  | nil => intro s0 s i hi; simp at hi
  | cons p rest ih =>
    intro s0 s i hi
    simp only [importLoop, mergeInputs, List.mem_cons]
    cases i with
    | zero => exact Or.inl (by simp)
    | succ j =>
      refine Or.inr ?_
      have hj : j < rest.length := by simpa using hi
      have h0 : s0 + (j + 1) = (s0 + 1) + j := by omega
      have h1 : s + (j + 1) = (s + 1) + j := by omega
      rw [h0, h1]
      exact ih (s0 + 1) (s + 1) j hj

lemma mem_importLoop_cases (imp : Importer) (fs : List String) :
    ∀ (s : Nat) (e : Event), e ∈ (importLoop imp s fs).1 →
      ∃ i path, e ∈ importLoopStep imp i path := by
  induction fs with
  | nil => intro s e he; simp [importLoop] at he
  | cons p rest ih =>
    intro s e he
    simp only [importLoop, List.mem_append] at he
    cases he with
    | inl h => exact ⟨s, p, h⟩
    | inr h => exact ih (s + 1) e h

lemma mem_mergeInputs_cases (imp : Importer) (fn : List String) :
    ∀ (s : Nat) (e : Event), e ∈ mergeInputs imp s fn →
      ∃ i nd, e = Event.setInput (mergePath imp) i nd := by
  induction fn with
  | nil => intro s e he; simp [mergeInputs] at he
  | cons x rest ih =>
    intro s e he
    simp only [mergeInputs, List.mem_cons] at he
    cases he with
    | inl h => exact ⟨s, x, h⟩
    | inr h => exact ih (s + 1) e h

lemma importLoop_countP (imp : Importer) (q : Event → Bool) (c : Nat)
    (hc : ∀ i path, (importLoopStep imp i path).countP q = c) :
    ∀ (s : Nat) (fs : List String),
      ((importLoop imp s fs).1).countP q = fs.length * c := by
  intro s fs
  induction fs generalizing s with
  | nil => simp [importLoop]
  | cons p rest ih =>
    simp only [importLoop, List.countP_append, hc, ih, List.length_cons]
    ring

lemma step_mem_create (imp : Importer) (h : imp.fbx_files ≠ []) (i : Nat)
    (hi : i < imp.fbx_files.length) :
    ∀ e ∈ importLoopStep imp i (imp.fbx_files.getD i ("")),
      e ∈ (create_fbx_import_network imp).2 := by
  intro e he
  have hl : e ∈ (importLoop imp 0 imp.fbx_files).1 :=
    mem_of_mem_step imp imp.fbx_files 0 i hi e (by simpa using he)
  simp only [create_fbx_import_network, isEmpty_eq_false h, Bool.false_eq_true,
    if_false, List.mem_append]
  exact Or.inl (Or.inl (Or.inr hl))

lemma mergeEvents_mem_create (imp : Importer) (h : imp.fbx_files ≠ []) :
    ∀ e ∈ mergeEvents imp (importLoop imp 0 imp.fbx_files).2,
      e ∈ (create_fbx_import_network imp).2 := by
  intro e he
  simp only [create_fbx_import_network, isEmpty_eq_false h, Bool.false_eq_true,
    if_false, List.mem_append]
  exact Or.inl (Or.inr he)

lemma mem_create_cases (imp : Importer) (h : imp.fbx_files ≠ []) (e : Event)
    (he : e ∈ (create_fbx_import_network imp).2) :
    e ∈ headerEvents imp ∨ (∃ i path, e ∈ importLoopStep imp i path) ∨
      e ∈ mergeEvents imp (importLoop imp 0 imp.fbx_files).2 ∨
      e ∈ footerEvents imp := by
  simp only [create_fbx_import_network, isEmpty_eq_false h, Bool.false_eq_true,
    if_false, List.mem_append] at he
  rcases he with ((hh | hl) | hm) | hf
  · exact Or.inl hh
  · exact Or.inr (Or.inl (mem_importLoop_cases imp imp.fbx_files 0 e hl))
  · exact Or.inr (Or.inr (Or.inl hm))
  · exact Or.inr (Or.inr (Or.inr hf))

lemma mem_mergeEvents_cases (imp : Importer) (fn : List String)
    (hfn : fn ≠ []) (e : Event) (he : e ∈ mergeEvents imp fn) :
    e = Event.createNode (geoPath imp) ("merge") ("fbx_merge") ∨
      (∃ i nd, e = Event.setInput (mergePath imp) i nd) ∨
      e = Event.moveToGoodPosition (mergePath imp) ∨
      e = Event.setInput (outputPath imp) 0 (mergePath imp) ∨
      e = Event.setInput (outputPath imp) 0 (fn.headD ("")) := by
  by_cases h1 : 1 < fn.length <;>
    simp only [mergeEvents, isEmpty_eq_false hfn, Bool.false_eq_true, if_false,
      h1, if_true, List.mem_cons, List.mem_append, List.mem_singleton] at he
  · rcases he with h | (h | (h | (h | h)))
    · exact Or.inl h
    · exact Or.inr (Or.inl (mem_mergeInputs_cases imp fn 0 e h))
    · exact Or.inr (Or.inr (Or.inl h))
    · exact Or.inr (Or.inr (Or.inr (Or.inl h)))
    · exact absurd h (List.not_mem_nil e)
  · rcases he with h | h
    · exact Or.inr (Or.inr (Or.inr (Or.inr h)))
    · exact absurd h (List.not_mem_nil e)

lemma importLoop_snd_ne_nil (imp : Importer) (h : imp.fbx_files ≠ []) :
    (importLoop imp 0 imp.fbx_files).2 ≠ [] := by
  intro hnil
  have hlen := importLoop_snd_length imp imp.fbx_files 0
  rw [hnil] at hlen
  exact h (List.length_eq_zero.mp hlen.symm)

lemma mergeInputs_countP_setInput (imp : Importer) :
    ∀ (s : Nat) (fn : List String),
      (mergeInputs imp s fn).countP Event.isSetInput = fn.length := by
  intro s fn
  induction fn generalizing s with
  | nil => simp [mergeInputs]
  | cons x rest ih =>
    simp [mergeInputs, List.countP_cons, ih, Event.isSetInput]

lemma mergeInputs_countP_eq_zero (imp : Importer) (q : Event → Bool)
    (hq : ∀ i nd, q (Event.setInput (mergePath imp) i nd) = false) :
    ∀ (s : Nat) (fn : List String), (mergeInputs imp s fn).countP q = 0 := by
  intro s fn
  induction fn generalizing s with
  | nil => simp [mergeInputs]
  | cons x rest ih => simp [mergeInputs, List.countP_cons, hq, ih]

/-- A concrete two-file importer used to exercise the theorems below. -/
def impEx : Importer := withFiles ["/tmp/a.fbx", "/tmp/b.fbx"]

/-- A concrete one-file importer used to exercise the theorems below. -/
def impOne : Importer := withFiles ["/tmp/solo.fbx"]

/-- Claim C1: for every non-empty selection, the run creates, for the i-th
file, a file node `fbx_import_i` whose "file" parameter is set to that
path, and a transform node `transform_i` whose input 0 is connected to
that file node. -/
theorem claim_C1 (imp : Importer) (h : imp.fbx_files ≠ []) (i : Nat)
    (hi : i < imp.fbx_files.length) :
    Event.createNode (geoPath imp) ("file") ("fbx_import_" ++ toString i) ∈
        (create_fbx_import_network imp).2 ∧
    Event.setParm (filePath imp i) ("file")
        (Value.str (imp.fbx_files.getD i (""))) ∈
        (create_fbx_import_network imp).2 ∧
    Event.createNode (geoPath imp) ("xform") ("transform_" ++ toString i) ∈
        (create_fbx_import_network imp).2 ∧
    Event.setInput (xformPath imp i) 0 (filePath imp i) ∈
        (create_fbx_import_network imp).2 := by
  refine ⟨?_, ?_, ?_, ?_⟩ <;>
    exact step_mem_create imp h i hi _ (by simp [importLoopStep])

/-- Witness for C1: the second file of a two-file selection. -/
theorem claim_C1_witness :
    Event.createNode (geoPath impEx) ("file") ("fbx_import_" ++ toString 1) ∈
      (create_fbx_import_network impEx).2 :=
  (claim_C1 impEx (by decide) 1 (by decide)).1

/-- Claim C3: with the `__init__` configuration, the "tx" parameter of the
i-th transform node is set to exactly `translate_x * i = 20 * i`. -/
theorem claim_C3 (fs : List String) (h : fs ≠ []) (i : Nat)
    (hi : i < fs.length) :
    (withFiles fs).translate_x = 20 ∧
    Event.setParm (xformPath (withFiles fs) i) ("tx")
        (Value.int (20 * (i : Int))) ∈
      (create_fbx_import_network (withFiles fs)).2 := by
  refine ⟨rfl, ?_⟩
  exact step_mem_create (withFiles fs) h i hi _
    (by simp [importLoopStep, withFiles, Importer.init])

/-- Witness for C3: the second file sits at tx = 20. -/
theorem claim_C3_witness :
    Event.setParm (xformPath (withFiles ["/tmp/a.fbx", "/tmp/b.fbx"]) 1)
        ("tx") (Value.int (20 * ((1 : Nat) : Int))) ∈
      (create_fbx_import_network (withFiles ["/tmp/a.fbx", "/tmp/b.fbx"])).2 :=
  (claim_C3 ["/tmp/a.fbx", "/tmp/b.fbx"] (by decide) 1 (by decide)).2

/-- Claim C4: `get_fbx_files_from_ui` returns False exactly when the file
dialog returns an empty (falsy) selection; in that case it displays
"FBX file selection cancelled." and creates no nodes; otherwise it
returns True. -/
theorem claim_C4 (imp : Importer) (sel : String) :
    ((get_fbx_files_from_ui imp sel).2.2 = false ↔ sel = "") ∧
    (sel = "" → (get_fbx_files_from_ui imp sel).2.1 =
      [Event.displayMessage ("FBX file selection cancelled.")]) ∧
    (∀ p t n, Event.createNode p t n ∉ (get_fbx_files_from_ui imp sel).2.1) := by
  by_cases hs : sel = "" <;> simp [get_fbx_files_from_ui, hs]

/-- Witness for C4 at the cancelled dialog. -/
theorem claim_C4_witness :
    (get_fbx_files_from_ui Importer.init ("")).2.2 = false :=
  (claim_C4 Importer.init ("")).1.mpr rfl

/-- Claim C5: calling `create_fbx_import_network` with an empty (falsy)
`fbx_files` only displays "FBX files not selected. Please select files
first." and returns, creating no node and leaving the importer state
unchanged. -/
theorem claim_C5 (imp : Importer) (h : imp.fbx_files = []) :
    create_fbx_import_network imp =
      (imp, [Event.displayMessage
        ("FBX files not selected. Please select files first.")]) := by
  simp [create_fbx_import_network, h]

/-- Witness for C5 at the freshly initialized importer. -/
theorem claim_C5_witness :
    create_fbx_import_network Importer.init =
      (Importer.init, [Event.displayMessage
        ("FBX files not selected. Please select files first.")]) :=
  claim_C5 Importer.init rfl

/-- Claim C6: after a successful `get_fbx_files_from_ui` call (one that
returns True), `fbx_files` equals the dialog string split on ";" with each
element stripped of leading and trailing whitespace. -/
theorem claim_C6 (imp : Importer) (sel : String)
    (h : (get_fbx_files_from_ui imp sel).2.2 = true) :
    (get_fbx_files_from_ui imp sel).1.fbx_files =
      (sel.splitOn (";")).map String.trim := by
  by_cases hs : sel = ""
  · simp [get_fbx_files_from_ui, hs] at h
  · simp [get_fbx_files_from_ui, hs]

/-- Witness for C6 on a two-file selection with Houdini-style separators. -/
theorem claim_C6_witness :
    (get_fbx_files_from_ui Importer.init
        ("/tmp/a.fbx ; /tmp/b.fbx")).1.fbx_files =
      (("/tmp/a.fbx ; /tmp/b.fbx").splitOn (";")).map String.trim :=
  claim_C6 Importer.init ("/tmp/a.fbx ; /tmp/b.fbx") (by decide)

/-- Claim C7: neither method writes `geo_node_name`, `output_node_name` or
`translate_x`; `get_fbx_files_from_ui` only writes `fbx_files` and
`create_fbx_import_network` writes no field at all. -/
theorem claim_C7 (imp : Importer) (sel : String) :
    ((get_fbx_files_from_ui imp sel).1.geo_node_name = imp.geo_node_name ∧
     (get_fbx_files_from_ui imp sel).1.output_node_name =
       imp.output_node_name ∧
     (get_fbx_files_from_ui imp sel).1.translate_x = imp.translate_x) ∧
    (create_fbx_import_network imp).1 = imp := by
  constructor
  · by_cases hs : sel = "" <;> simp [get_fbx_files_from_ui, hs]
  · cases hE : imp.fbx_files.isEmpty <;> simp [create_fbx_import_network, hE]

/-- Witness for C7 at a concrete importer and dialog string. -/
theorem claim_C7_witness :
    (create_fbx_import_network impEx).1 = impEx :=
  (claim_C7 impEx ("")).2

/-- Claim C2: with more than one selected file a merge node `fbx_merge` is
created, its i-th input is the i-th transform node and the output node's
input 0 is the merge node; with exactly one selected file the output
node's input 0 is that single transform node and no merge node is
created. -/
theorem claim_C2 (imp : Importer) (h : imp.fbx_files ≠ []) :
    (1 < imp.fbx_files.length →
      Event.createNode (geoPath imp) ("merge") ("fbx_merge") ∈
          (create_fbx_import_network imp).2 ∧
      (∀ i, i < imp.fbx_files.length →
        Event.setInput (mergePath imp) i (xformPath imp i) ∈
          (create_fbx_import_network imp).2) ∧
      Event.setInput (outputPath imp) 0 (mergePath imp) ∈
          (create_fbx_import_network imp).2) ∧
    (imp.fbx_files.length = 1 →
      Event.setInput (outputPath imp) 0 (xformPath imp 0) ∈
          (create_fbx_import_network imp).2 ∧
      ∀ p nm, Event.createNode p ("merge") nm ∉
          (create_fbx_import_network imp).2) := by
  have hlen := importLoop_snd_length imp imp.fbx_files 0
  have hfn := importLoop_snd_ne_nil imp h
  constructor
  · intro h1
    have hfl : 1 < (importLoop imp 0 imp.fbx_files).2.length := by
      rw [hlen]; exact h1
    have hrw : mergeEvents imp (importLoop imp 0 imp.fbx_files).2 =
        Event.createNode (geoPath imp) ("merge") ("fbx_merge") ::
          (mergeInputs imp 0 (importLoop imp 0 imp.fbx_files).2 ++
           [Event.moveToGoodPosition (mergePath imp),
            Event.setInput (outputPath imp) 0 (mergePath imp)]) := by
      simp [mergeEvents, isEmpty_eq_false hfn, hfl]
    refine ⟨?_, ?_, ?_⟩
    · apply mergeEvents_mem_create imp h
      rw [hrw]
      exact List.mem_cons_self _ _
    · intro i hi
      apply mergeEvents_mem_create imp h
      rw [hrw]
      refine List.mem_cons_of_mem _ (List.mem_append_left _ ?_)
      simpa using mergeInputs_mem imp imp.fbx_files 0 0 i hi
    · apply mergeEvents_mem_create imp h
      rw [hrw]
      refine List.mem_cons_of_mem _ (List.mem_append_right _ ?_)
      simp
  · intro h1
    have hfl : ¬ 1 < (importLoop imp 0 imp.fbx_files).2.length := by
      rw [hlen, h1]; omega
    have hrw : mergeEvents imp (importLoop imp 0 imp.fbx_files).2 =
        [Event.setInput (outputPath imp) 0 (xformPath imp 0)] := by
      simp only [mergeEvents, isEmpty_eq_false hfn, Bool.false_eq_true,
        if_false, hfl, importLoop_snd_headD imp 0 imp.fbx_files h]
    constructor
    · apply mergeEvents_mem_create imp h
      rw [hrw]
      simp
    · intro p nm hmem
      rcases mem_create_cases imp h _ hmem with hh | ⟨i, path, hstep⟩ | hm | hf
      · simp [headerEvents] at hh
      · simp [importLoopStep] at hstep
      · rw [hrw] at hm
        simp at hm
      · simp [footerEvents] at hf

/-- Witness for C2: the merge node of a two-file run. -/
theorem claim_C2_witness :
    Event.createNode (geoPath impEx) ("merge") ("fbx_merge") ∈
      (create_fbx_import_network impEx).2 :=
  ((claim_C2 impEx (by decide)).1 (by decide)).1

/-- Claim C8: a run with n selected files performs exactly
2 + 2n + (1 if n > 1 else 0) node creations, 2n parameter sets, and
n + (n + 1 if n > 1 else 1) input connections. -/
theorem claim_C8 (imp : Importer) (h : imp.fbx_files ≠ []) :
    ((create_fbx_import_network imp).2.countP Event.isCreateNode =
      2 + 2 * imp.fbx_files.length +
        (if 1 < imp.fbx_files.length then 1 else 0)) ∧
    ((create_fbx_import_network imp).2.countP Event.isSetParm =
      2 * imp.fbx_files.length) ∧
    ((create_fbx_import_network imp).2.countP Event.isSetInput =
      imp.fbx_files.length +
        (if 1 < imp.fbx_files.length then imp.fbx_files.length + 1 else 1)) := by
  have hE := isEmpty_eq_false h
  have hlen := importLoop_snd_length imp imp.fbx_files 0
  have hfn := importLoop_snd_ne_nil imp h
  have hrw : (create_fbx_import_network imp).2 =
      headerEvents imp ++ (importLoop imp 0 imp.fbx_files).1 ++
        mergeEvents imp (importLoop imp 0 imp.fbx_files).2 ++
        footerEvents imp := by
    simp [create_fbx_import_network, hE]
  have hloopC := importLoop_countP imp Event.isCreateNode 2
    (fun i path => by
      simp [importLoopStep, List.countP_cons, List.countP_nil,
        Event.isCreateNode]) 0 imp.fbx_files
  have hloopP := importLoop_countP imp Event.isSetParm 2
    (fun i path => by
      simp [importLoopStep, List.countP_cons, List.countP_nil,
        Event.isSetParm]) 0 imp.fbx_files
  have hloopI := importLoop_countP imp Event.isSetInput 1
    (fun i path => by
      simp [importLoopStep, List.countP_cons, List.countP_nil,
        Event.isSetInput]) 0 imp.fbx_files
  have hmiI := mergeInputs_countP_setInput imp 0
    (importLoop imp 0 imp.fbx_files).2
  have hmiC := mergeInputs_countP_eq_zero imp Event.isCreateNode
    (fun i nd => rfl) 0 (importLoop imp 0 imp.fbx_files).2
  have hmiP := mergeInputs_countP_eq_zero imp Event.isSetParm
    (fun i nd => rfl) 0 (importLoop imp 0 imp.fbx_files).2
  rcases Nat.lt_or_ge 1 imp.fbx_files.length with h1 | h1
  · have hfl : 1 < (importLoop imp 0 imp.fbx_files).2.length := by
      rw [hlen]; exact h1
    have hmrw : mergeEvents imp (importLoop imp 0 imp.fbx_files).2 =
        Event.createNode (geoPath imp) ("merge") ("fbx_merge") ::
          (mergeInputs imp 0 (importLoop imp 0 imp.fbx_files).2 ++
           [Event.moveToGoodPosition (mergePath imp),
            Event.setInput (outputPath imp) 0 (mergePath imp)]) := by
      simp [mergeEvents, isEmpty_eq_false hfn, hfl]
    rw [hrw, hmrw]
    refine ⟨?_, ?_, ?_⟩ <;>
      simp [List.countP_append, List.countP_cons, List.countP_nil,
        headerEvents, footerEvents, Event.isCreateNode, Event.isSetParm,
        Event.isSetInput, hloopC, hloopP, hloopI, hmiI, hmiC, hmiP, hlen,
        h1] <;> omega
  · have hn1 : imp.fbx_files.length = 1 := by
      have := List.length_pos.mpr h
      omega
    have hfl : ¬ 1 < (importLoop imp 0 imp.fbx_files).2.length := by
      rw [hlen, hn1]; omega
    have hmrw : mergeEvents imp (importLoop imp 0 imp.fbx_files).2 =
        [Event.setInput (outputPath imp) 0
          (((importLoop imp 0 imp.fbx_files).2).headD (""))] := by
      simp [mergeEvents, isEmpty_eq_false hfn, hfl]
    rw [hrw, hmrw]
    refine ⟨?_, ?_, ?_⟩ <;>
      simp [List.countP_append, List.countP_cons, List.countP_nil,
        headerEvents, footerEvents, Event.isCreateNode, Event.isSetParm,
        Event.isSetInput, hloopC, hloopP, hloopI, hn1]

/-- Witness for C8: the two-file run creates 7 nodes, sets 4 parameters
and makes 5 connections. -/
theorem claim_C8_witness :
    (create_fbx_import_network impEx).2.countP Event.isCreateNode =
      2 + 2 * impEx.fbx_files.length +
        (if 1 < impEx.fbx_files.length then 1 else 0) :=
  (claim_C8 impEx (by decide)).1

/-- Claim C9: once the first guard passes, the second emptiness check is
dead code: a run on a non-empty selection never shows the
"No FBX files selected." message (and thus never takes that destroy
branch). -/
theorem claim_C9 (imp : Importer) (h : imp.fbx_files ≠ []) :
    Event.displayMessage ("No FBX files selected.") ∉
      (create_fbx_import_network imp).2 := by
  intro hmem
  have hfn := importLoop_snd_ne_nil imp h
  rcases mem_create_cases imp h _ hmem with hh | ⟨i, path, hstep⟩ | hm | hf
  · simp [headerEvents] at hh
  · simp [importLoopStep] at hstep
  · rcases mem_mergeEvents_cases imp _ hfn _ hm with
      h1 | ⟨i, nd, h1⟩ | h1 | h1 | h1 <;> simp at h1
  · simp [footerEvents] at hf

/-- Witness for C9 at the two-file importer. -/
theorem claim_C9_witness :
    Event.displayMessage ("No FBX files selected.") ∉
      (create_fbx_import_network impEx).2 :=
  claim_C9 impEx (by decide)

/-- Claim C10: on a non-empty selection the loop stores one transform node
per file, so `file_nodes` is non-empty, the "No valid FBX files
selected." branch is unreachable and the geometry node is never
destroyed. -/
theorem claim_C10 (imp : Importer) (h : imp.fbx_files ≠ []) :
    ((importLoop imp 0 imp.fbx_files).2).length = imp.fbx_files.length ∧
    Event.displayMessage ("No valid FBX files selected.") ∉
      (create_fbx_import_network imp).2 ∧
    ∀ nd, Event.destroy nd ∉ (create_fbx_import_network imp).2 := by
  have hfn := importLoop_snd_ne_nil imp h
  refine ⟨importLoop_snd_length imp imp.fbx_files 0, ?_, ?_⟩
  · intro hmem
    rcases mem_create_cases imp h _ hmem with hh | ⟨i, path, hstep⟩ | hm | hf
    · simp [headerEvents] at hh
    · simp [importLoopStep] at hstep
    · rcases mem_mergeEvents_cases imp _ hfn _ hm with
        h1 | ⟨i, nd, h1⟩ | h1 | h1 | h1 <;> simp at h1
    · simp [footerEvents] at hf
  · intro nd hmem
    rcases mem_create_cases imp h _ hmem with hh | ⟨i, path, hstep⟩ | hm | hf
    · simp [headerEvents] at hh
    · simp [importLoopStep] at hstep
    · rcases mem_mergeEvents_cases imp _ hfn _ hm with
        h1 | ⟨i, nd2, h1⟩ | h1 | h1 | h1 <;> simp at h1
    · simp [footerEvents] at hf

/-- Witness for C10 at the one-file importer. -/
theorem claim_C10_witness :
    ((importLoop impOne 0 impOne.fbx_files).2).length =
      impOne.fbx_files.length :=
  (claim_C10 impOne (by decide)).1

end HoudiniFbx
